import Mathlib

/-!
Shallow embedding of the Piper TTS HTTP server (`server.py`) and proofs of the
spec claims about it.  Pure string manipulation mirrors the Python string
operations used by the source; filesystem, network and subprocess effects are
modelled by explicit state passing (a list of existing file paths) together
with an event trace.
-/

namespace PiperServer

/-- Python `s.split(sep)` for a single-character separator: splits at every
occurrence of the separator, keeping empty segments, and returns `[""]` for
the empty string (matching CPython semantics). -/
def splitCharAux (sep : Char) : List Char → List Char → List String
  | [], acc => [String.mk acc.reverse]
  | c :: rest, acc =>
    if c = sep then String.mk acc.reverse :: splitCharAux sep rest []
    else splitCharAux sep rest (c :: acc)

/-- Python `s.split(sep)` with a one-character separator. -/
def splitChar (s : String) (sep : Char) : List String :=
  splitCharAux sep s.data []

/-- Python `s.lower()` (ASCII case folding suffices for the format strings
handled by the server). -/
def toLowerPy (s : String) : String :=
  String.mk (s.data.map Char.toLower)

/-- Fuel-indexed worker for `replacePy`; fuel is the length of the input so
that the recursion is structural and kernel-reducible. -/
def replaceAux (pat rep : List Char) : Nat → List Char → List Char
  | _, [] => []
  | 0, l => l
  | fuel + 1, c :: rest =>
    if pat.isPrefixOf (c :: rest) then
      rep ++ replaceAux pat rep fuel (rest.drop (pat.length - 1))
    else
      c :: replaceAux pat rep fuel rest

/-- Python `s.replace(pat, rep)`: replaces every non-overlapping occurrence,
scanning left to right. -/
def replacePy (s pat rep : String) : String :=
  String.mk (replaceAux pat.data rep.data s.data.length s.data)

/-- Python `sep.join(xs)`. -/
def joinWith (sep : String) : List String → String
  | [] => ""
  | [s] => s
  | s :: t :: rest => s ++ sep ++ joinWith sep (t :: rest)

/-- Worker for `strContains`: does `needle` occur as a contiguous sublist? -/
def containsSub (needle : List Char) : List Char → Bool
  | [] => needle.isEmpty
  | c :: t => needle.isPrefixOf (c :: t) || containsSub needle t

/-- Python `needle in hay` on strings: substring test. -/
def strContains (hay needle : String) : Bool :=
  containsSub needle.data hay.data

/-- Python truthiness-based `a or b` where `a` is an optional string: `None`
and the empty string both fall through to `b`. -/
def pyOrStr (a : Option String) (b : String) : String :=
  match a with
  | some s => if s = "" then b else s
  | none => b

/-- Python truthiness-based `a or b` where `a` is an optional float: `None`
and `0.0` both fall through to `b`.  Floats are modelled as rationals. -/
def pyOrQ (a : Option ℚ) (b : ℚ) : ℚ :=
  match a with
  | some v => if v = 0 then b else v
  | none => b

/-! ## Configuration constants (`server.py`, lines 14-16) -/

/-- Storage root for voice assets; `DATA_DIR` defaults to `/data`. -/
def DATA_DIR : String := "/data"

/-- Base URL of the remote voice repository. -/
def HF_URL_BASE : String := "https://huggingface.co/rhasspy/piper-voices/resolve/v1.0.0"

/-- Path join as performed by `pathlib.Path./`: an absolute right operand
replaces the base, otherwise the two are joined with a separator. -/
def pathJoin (base child : String) : String :=
  if ['/'].isPrefixOf child.data then child else base ++ "/" ++ child

/-! ## Request data model (`OpenAISpeechRequest`, `server.py` lines 35-106) -/

/-- Python `Union[str, List[str]]` for the `input` field. -/
inductive InputField
  | str (s : String)
  | list (ss : List String)
deriving DecidableEq

/-- Request body of `POST /v1/audio/speech`.  Floats are modelled as
rationals; optional fields as `Option`. -/
structure SpeechRequest where
  model : String
  input : InputField
  voice : Option String
  format : Option String
  response_format : Option String
  speed : Option ℚ
  noise_scale : Option ℚ
  noise_scale_w : Option ℚ
  length_scale : Option ℚ
  speaker : Option Int
deriving DecidableEq

/-! ## Effect model: filesystem state and event traces -/

/-- Outcome of one remote `GET` plus the incremental write of its body:
either the request fails before the destination file is opened
(`statusError`, covering network errors and non-success HTTP statuses), or
the file is created but a write error interrupts it (`writeError`), or the
file is fully written (`ok`). -/
inductive FetchResult
  | statusError
  | writeError
  | ok
deriving DecidableEq

/-- Argument list of the synthesis engine subprocess (`piper_cmd`,
`server.py` lines 319-335), with the numeric-to-string rendering of the
rational parameters abstracted away. -/
structure PiperCmd where
  model : String
  output_file : String
  length_scale : ℚ
  noise_scale : Option ℚ
  noise_w : Option ℚ
  speaker : Option Int
deriving DecidableEq

/-- Observable effects of one request, in program order. -/
inductive Ev
  | checkExists (p : String)
  | mkdir (p : String)
  | netGet (url : String)
  | fwrite (p : String)
  | fdelete (p : String)
  | fread (p : String)
  | spawnFfmpeg (inputFile outputFile : String)
  | spawnPiper (cmd : PiperCmd) (stdin : String)
  | logInvalidName (v : String)
  | logDownloadFailed (v : String)
  | logFfmpegError
  | logPiperError (stderr : String)
  | logWarn (p : String)
deriving DecidableEq

/-- External world a request executes against: the set of existing files,
the per-URL behaviour of the remote repository, whether the transcoder
binary works, the engine's exit code and standard error, the chunked
content of files read back for streaming, and the components of the
temporary WAV file name. -/
structure Env where
  fs : List String
  fetch : String → FetchResult
  ffmpegOk : Bool
  piperExit : Int
  piperStderr : String
  chunks : String → List (List Nat)
  pid : Nat
  hex : String

/-- Record a file as existing (set-like insertion). -/
def fsInsert (fs : List String) (p : String) : List String :=
  if p ∈ fs then fs else p :: fs

/-- Remove a file from the filesystem state. -/
def fsRemove (fs : List String) (p : String) : List String :=
  fs.filter (fun q => q != p)

/-- Python `path.unlink()` guarded by `path.exists()` as in the download
failure handler (`server.py` lines 156-159). -/
def unlinkIfExists (fs : List String) (p : String) : List String × List Ev :=
  if p ∈ fs then (fsRemove fs p, [Ev.fdelete p]) else (fs, [])

/-! ## `get_voice_paths` (`server.py` lines 112-114) -/

/-- Local `.onnx` and `.onnx.json` paths for a given Piper voice.  No
validation is performed on the name (the source performs none either). -/
def get_voice_paths (voice_name : String) : String × String :=
  (pathJoin DATA_DIR (voice_name ++ ".onnx"),
   pathJoin DATA_DIR (voice_name ++ ".onnx.json"))

/-! ## `download_voice_if_missing` (`server.py` lines 117-160) -/

/-- Remote repository sub-path for a voice, from its dash-separated parts
(`server.py` line 142); meaningful only when the name has at least three
parts. -/
def voiceRepoPath (voice_name : String) : String :=
  let parts := splitChar voice_name '-'
  let lang_code := parts.headD ""
  let name := (parts.drop 1).headD ""
  let quality := (parts.drop 2).headD ""
  let lang_short := (splitChar lang_code '_').headD ""
  lang_short ++ "/" ++ lang_code ++ "/" ++ name ++ "/" ++ quality ++ "/" ++ voice_name

/-- Full download URL for one of the two asset extensions. -/
def voiceUrl (voice_name ext : String) : String :=
  HF_URL_BASE ++ "/" ++ voiceRepoPath voice_name ++ ext

/-- The `for ext in (".onnx", ".onnx.json")` download loop (`server.py`
lines 145-152): returns whether every fetch succeeded, together with the
filesystem state and the trace of network and write effects. -/
def fetchLoop (fetch : String → FetchResult) (voice_name : String) :
    List String → List String → Bool × List String × List Ev
  | [], fs => (true, fs, [])
  | ext :: rest, fs =>
    let url := voiceUrl voice_name ext
    let dest := pathJoin DATA_DIR (voice_name ++ ext)
    match fetch url with
    | FetchResult.statusError => (false, fs, [Ev.netGet url])
    | FetchResult.writeError =>
      (false, fsInsert fs dest, [Ev.netGet url, Ev.fwrite dest])
    | FetchResult.ok =>
      let r := fetchLoop fetch voice_name rest (fsInsert fs dest)
      (r.1, r.2.1, Ev.netGet url :: Ev.fwrite dest :: r.2.2)

/-- Body of `download_voice_if_missing` past the local-presence fast path:
logging, directory creation, name parsing and the fetch loop with its
failure handler. -/
def downloadBody (fetch : String → FetchResult) (fs : List String)
    (voice_name : String) (evs0 : List Ev) : Bool × List String × List Ev :=
  let onnx_path := (get_voice_paths voice_name).1
  let json_path := (get_voice_paths voice_name).2
  let evs1 := evs0 ++ [Ev.mkdir DATA_DIR]
  let parts := splitChar voice_name '-'
  if parts.length < 3 then
    (false, fs, evs1 ++ [Ev.logInvalidName voice_name])
  else
    let r := fetchLoop fetch voice_name [".onnx", ".onnx.json"] fs
    if r.1 then (true, r.2.1, evs1 ++ r.2.2)
    else
      let u1 := unlinkIfExists r.2.1 onnx_path
      let u2 := unlinkIfExists u1.1 json_path
      (false, u2.1,
        evs1 ++ r.2.2 ++ [Ev.logDownloadFailed voice_name] ++ u1.2 ++ u2.2)

/-- `download_voice_if_missing`: returns `true` when both asset files exist
or are successfully fetched, `false` otherwise, threading the filesystem
state and the effect trace. -/
def download_voice_if_missing (fetch : String → FetchResult) (fs : List String)
    (voice_name : String) : Bool × List String × List Ev :=
  let onnx_path := (get_voice_paths voice_name).1
  let json_path := (get_voice_paths voice_name).2
  if onnx_path ∈ fs then
    if json_path ∈ fs then
      (true, fs, [Ev.checkExists onnx_path, Ev.checkExists json_path])
    else
      downloadBody fetch fs voice_name
        [Ev.checkExists onnx_path, Ev.checkExists json_path]
  else
    downloadBody fetch fs voice_name [Ev.checkExists onnx_path]

/-! ## `convert_audio_if_needed` (`server.py` lines 163-215) -/

/-- Result of the conversion planning step: either a final path, media type
and extra cleanup list, or an HTTP error (status code and detail). -/
inductive ConvResult
  | ok (final_path media_type : String) (extra : List String)
  | err (status : Nat) (detail : String)
deriving DecidableEq

/-- Case-normalization of the requested format, `(target_format or
"wav").lower()` (`server.py` line 176). -/
def normalize_format (target_format : String) : String :=
  toLowerPy (if target_format = "" then "wav" else target_format)

/-- `convert_audio_if_needed`: `wav` is a no-op; `mp3` spawns the ffmpeg
transcoder (which succeeds only when the binary works and the input file
exists); anything else is a 400 client error raised without touching the
filesystem or spawning a process. -/
def convert_audio_if_needed (env : Env) (fs : List String)
    (wav_path target_format : String) : ConvResult × List String × List Ev :=
  let t := normalize_format target_format
  if t = "wav" then
    (ConvResult.ok wav_path "audio/wav" [], fs, [])
  else if t = "mp3" then
    let mp3_path := replacePy wav_path ".wav" ".mp3"
    if env.ffmpegOk ∧ wav_path ∈ fs then
      (ConvResult.ok mp3_path "audio/mpeg" [mp3_path],
       fsInsert fs mp3_path, [Ev.spawnFfmpeg wav_path mp3_path])
    else
      (ConvResult.err 500
        "Failed to convert audio to mp3. Is ffmpeg installed in the container?",
       fs, [Ev.spawnFfmpeg wav_path mp3_path, Ev.logFfmpegError])
  else
    (ConvResult.err 400
      "Unsupported audio format. Only 'wav' and 'mp3' are supported.", fs, [])

/-! ## `stream_audio_generator` (`server.py` lines 218-266) -/

/-- Result of running the streaming generator to completion: the streamed
chunks on success, the 500 carrying the engine exit code on synthesis
failure, the chunks streamed so far when the consumer stops early, or a
read failure on the final file. -/
inductive StreamOutcome
  | success (body : List (List Nat))
  | engineFailure (code : Int) (detail : String)
  | interrupted (body : List (List Nat))
  | readError
deriving DecidableEq

/-- The `finally` block of the generator (`server.py` lines 260-266): for
each registered file, skip empty names and missing files, attempt removal
otherwise; a failed removal is logged and iteration continues. -/
def cleanupFiles (rf : String → Bool) :
    List String → List String → List String × List Ev
  | [], fs => (fs, [])
  | f :: rest, fs =>
    if f = "" then cleanupFiles rf rest fs
    else if f ∈ fs then
      if rf f then
        let r := cleanupFiles rf rest fs
        (r.1, Ev.logWarn f :: r.2)
      else
        let r := cleanupFiles rf rest (fsRemove fs f)
        (r.1, Ev.fdelete f :: r.2)
    else cleanupFiles rf rest fs

/-- The `try` body of the generator (`server.py` lines 235-259): run the
engine (which writes the WAV file on success), raise on a non-zero exit
code, then open the final file and yield its chunks until exhaustion or the
consumer disconnects (`interruptAfter` chunks consumed). -/
def stream_phase1 (env : Env) (fs : List String) (piper_cmd : PiperCmd)
    (input_text wav_path final_path : String) (interruptAfter : Option Nat) :
    StreamOutcome × List String × List Ev :=
  if env.piperExit ≠ 0 then
    (StreamOutcome.engineFailure env.piperExit
       ("Piper failed with exit code " ++ toString env.piperExit),
     fs,
     [Ev.spawnPiper piper_cmd input_text, Ev.logPiperError env.piperStderr])
  else
    let fs1 := fsInsert fs wav_path
    let body : StreamOutcome :=
      if final_path ∈ fs1 then
        let cs := env.chunks final_path
        match interruptAfter with
        | some k =>
          if k < cs.length then StreamOutcome.interrupted (cs.take k)
          else StreamOutcome.success cs
        | none => StreamOutcome.success cs
      else StreamOutcome.readError
    (body, fs1, [Ev.spawnPiper piper_cmd input_text, Ev.fread final_path])

/-- `stream_audio_generator`: the try body followed unconditionally by the
cleanup of every registered temporary file.  `rf` tells which removals
fail. -/
def stream_audio_generator (env : Env) (rf : String → Bool) (fs : List String)
    (piper_cmd : PiperCmd) (input_text wav_path final_path : String)
    (extra_cleanup : List String) (interruptAfter : Option Nat) :
    StreamOutcome × List String × List Ev :=
  let p := stream_phase1 env fs piper_cmd input_text wav_path final_path interruptAfter
  let c := cleanupFiles rf (wav_path :: extra_cleanup) p.2.1
  (p.1, c.1, p.2.2 ++ c.2)

/-! ## `generate_speech` (`server.py` lines 272-351) -/

/-- Python `"\n".join(input)` for list input, identity for string input
(`server.py` lines 295-298). -/
def join_input : InputField → String
  | InputField.str s => s
  | InputField.list ss => joinWith "\n" ss

/-- Effective voice name, `request.voice or request.model` (line 284). -/
def effective_voice (req : SpeechRequest) : String :=
  pyOrStr req.voice req.model

/-- Effective output format, `request.format or request.response_format or
"wav"` (line 292). -/
def effective_format (req : SpeechRequest) : String :=
  pyOrStr req.format (pyOrStr req.response_format "wav")

/-- Length scale handed to the engine: the explicit `length_scale` verbatim
when present, otherwise `1.0 / max(0.1, (request.speed or 1.0))`
(`server.py` lines 313-316). -/
def final_length_scale (req : SpeechRequest) : ℚ :=
  match req.length_scale with
  | some l => l
  | none => 1 / max (1 / 10) (pyOrQ req.speed 1)

/-- The engine argument list (`server.py` lines 319-335). -/
def build_piper_cmd (req : SpeechRequest) (onnx_path wav_path : String) : PiperCmd :=
  { model := onnx_path
    output_file := wav_path
    length_scale := final_length_scale req
    noise_scale := req.noise_scale
    noise_w := req.noise_scale_w
    speaker := req.speaker }

/-- Per-request temporary WAV path,
`f"/tmp/piper_{os.getpid()}_{os.urandom(4).hex()}.wav"` (line 310). -/
def wav_path_of (env : Env) : String :=
  "/tmp/piper_" ++ toString env.pid ++ "_" ++ env.hex ++ ".wav"

/-- Result of one full request: an HTTP error response, or a streamed body
with its media type. -/
inductive Outcome
  | error (status : Nat) (detail : String)
  | streamed (media_type : String) (result : StreamOutcome)
deriving DecidableEq

/-- The `/v1/audio/speech` endpoint, including the deferred execution of
the streaming generator: voice fallback and check, format resolution, input
joining and check, voice download, command construction, conversion
planning, then the generator.  Returns the outcome, the final filesystem
state and the full effect trace. -/
def handle_request (env : Env) (rf : String → Bool) (req : SpeechRequest)
    (interruptAfter : Option Nat) : Outcome × List String × List Ev :=
  let voice_name := effective_voice req
  if voice_name = "" then
    (Outcome.error 400
      "`voice` (or `model` as fallback) must be provided as Piper voice name.",
     env.fs, [])
  else
    let requested_format := effective_format req
    let input_text := join_input req.input
    if input_text = "" then
      (Outcome.error 400 "`input` text must not be empty.", env.fs, [])
    else
      let d := download_voice_if_missing env.fetch env.fs voice_name
      if d.1 = false then
        (Outcome.error 404 ("Voice '" ++ voice_name ++ "' not found."),
         d.2.1, d.2.2)
      else
        let onnx_path := (get_voice_paths voice_name).1
        let wav_path := wav_path_of env
        let piper_cmd := build_piper_cmd req onnx_path wav_path
        let c := convert_audio_if_needed env d.2.1 wav_path requested_format
        match c.1 with
        | ConvResult.err s detail =>
          (Outcome.error s detail, c.2.1, d.2.2 ++ c.2.2)
        | ConvResult.ok final_path media extra =>
          let g := stream_audio_generator env rf c.2.1 piper_cmd input_text
            wav_path final_path extra interruptAfter
          (Outcome.streamed media g.1, g.2.1, d.2.2 ++ c.2.2 ++ g.2.2)

/-! ## Event classifiers -/

/-- Tests whether an event is a spawn of the synthesis engine. -/
def isPiperSpawn : Ev → Bool
  | Ev.spawnPiper _ _ => true
  | _ => false

/-- Tests whether an event is a spawn of the ffmpeg transcoder. -/
def isFfmpegSpawn : Ev → Bool
  | Ev.spawnFfmpeg _ _ => true
  | _ => false

/-! ## Basic lemmas about the filesystem model -/

lemma fsRemove_not_mem (fs : List String) (p : String) : p ∉ fsRemove fs p := by
  simp [fsRemove, List.mem_filter]

lemma fsRemove_subset {q : String} (fs : List String) (p : String)
    (h : q ∈ fsRemove fs p) : q ∈ fs := by
  simp only [fsRemove, List.mem_filter] at h
  exact h.1

lemma unlinkIfExists_not_mem (fs : List String) (p : String) :
    p ∉ (unlinkIfExists fs p).1 := by
  by_cases h : p ∈ fs
  · simp [unlinkIfExists, h, fsRemove, List.mem_filter]
  · simp [unlinkIfExists, h]

lemma unlinkIfExists_subset {q : String} (fs : List String) (p : String)
    (h : q ∈ (unlinkIfExists fs p).1) : q ∈ fs := by
  by_cases hp : p ∈ fs
  · rw [unlinkIfExists, if_pos hp] at h
    exact fsRemove_subset fs p h
  · rwa [unlinkIfExists, if_neg hp] at h

lemma unlinkIfExists_evs (fs : List String) (p : String) :
    ∀ e ∈ (unlinkIfExists fs p).2, e = Ev.fdelete p := by
  by_cases h : p ∈ fs <;> simp [unlinkIfExists, h]

/-- Deleting first one file and then another leaves neither present. -/
lemma unlink_pair (fs : List String) (a b : String) :
    a ∉ (unlinkIfExists (unlinkIfExists fs a).1 b).1 ∧
    b ∉ (unlinkIfExists (unlinkIfExists fs a).1 b).1 := by
  constructor
  · intro h
    exact unlinkIfExists_not_mem fs a (unlinkIfExists_subset _ b h)
  · exact unlinkIfExists_not_mem _ b

/-! ## Lemmas about the generator cleanup -/

lemma cleanupFiles_subset (rf : String → Bool) :
    ∀ (files fs : List String) {q : String},
      q ∈ (cleanupFiles rf files fs).1 → q ∈ fs := by
  intro files
  induction files with
  | nil => intro fs q h; simpa [cleanupFiles] using h
  | cons f rest ih =>
    intro fs q h
    by_cases hf : f = ""
    · rw [cleanupFiles, if_pos hf] at h
      exact ih fs h
    · by_cases hmem : f ∈ fs
      · by_cases hrf : rf f
        · rw [cleanupFiles, if_neg hf, if_pos hmem, if_pos hrf] at h
          exact ih fs h
        · rw [cleanupFiles, if_neg hf, if_pos hmem, if_neg hrf] at h
          exact fsRemove_subset fs f (ih _ h)
      · rw [cleanupFiles, if_neg hf, if_neg hmem] at h
        exact ih fs h

lemma cleanupFiles_evs (rf : String → Bool) :
    ∀ (files fs : List String) {e : Ev},
      e ∈ (cleanupFiles rf files fs).2 →
      (∃ p, e = Ev.fdelete p) ∨ ∃ p, e = Ev.logWarn p := by
  intro files
  induction files with
  | nil => intro fs e h; simp [cleanupFiles] at h
  | cons f rest ih =>
    intro fs e h
    by_cases hf : f = ""
    · rw [cleanupFiles, if_pos hf] at h
      exact ih fs h
    · by_cases hmem : f ∈ fs
      · by_cases hrf : rf f
        · rw [cleanupFiles, if_neg hf, if_pos hmem, if_pos hrf] at h
          rcases List.mem_cons.mp h with h | h
          · exact Or.inr ⟨f, h⟩
          · exact ih fs h
        · rw [cleanupFiles, if_neg hf, if_pos hmem, if_neg hrf] at h
          rcases List.mem_cons.mp h with h | h
          · exact Or.inl ⟨f, h⟩
          · exact ih _ h
      · rw [cleanupFiles, if_neg hf, if_neg hmem] at h
        exact ih fs h

lemma cleanupFiles_deletes (rf : String → Bool) :
    ∀ (files fs : List String) {f : String}, f ∈ files → f ≠ "" →
      f ∉ (cleanupFiles rf files fs).1 ∨
      Ev.logWarn f ∈ (cleanupFiles rf files fs).2 := by
  intro files
  induction files with
  | nil => intro fs f h; exact absurd h (List.not_mem_nil f)
  | cons g rest ih =>
    intro fs f hmem hne
    rcases List.mem_cons.mp hmem with hfg | htail
    · subst hfg
      by_cases hin : f ∈ fs
      · by_cases hrf : rf f
        · rw [cleanupFiles, if_neg hne, if_pos hin, if_pos hrf]
          exact Or.inr (List.mem_cons_self _ _)
        · rw [cleanupFiles, if_neg hne, if_pos hin, if_neg hrf]
          refine Or.inl fun h => ?_
          exact fsRemove_not_mem fs f (cleanupFiles_subset rf rest _ h)
      · rw [cleanupFiles, if_neg hne, if_neg hin]
        exact Or.inl fun h => hin (cleanupFiles_subset rf rest fs h)
    · by_cases hg : g = ""
      · rw [cleanupFiles, if_pos hg]
        exact ih fs htail hne
      · by_cases hin : g ∈ fs
        · by_cases hrf : rf g
          · rw [cleanupFiles, if_neg hg, if_pos hin, if_pos hrf]
            rcases ih fs htail hne with h | h
            · exact Or.inl h
            · exact Or.inr (List.mem_cons_of_mem _ h)
          · rw [cleanupFiles, if_neg hg, if_pos hin, if_neg hrf]
            rcases ih (fsRemove fs g) htail hne with h | h
            · exact Or.inl h
            · exact Or.inr (List.mem_cons_of_mem _ h)
        · rw [cleanupFiles, if_neg hg, if_neg hin]
          exact ih fs htail hne

lemma cleanupFiles_no_piper_spawn (rf : String → Bool) (files fs : List String) :
    ∀ e ∈ (cleanupFiles rf files fs).2, isPiperSpawn e = false := by
  intro e he
  rcases cleanupFiles_evs rf files fs he with ⟨p, hp⟩ | ⟨p, hp⟩ <;> simp [hp, isPiperSpawn]

lemma cleanupFiles_filter_piper (rf : String → Bool) (files fs : List String) :
    ((cleanupFiles rf files fs).2.filter isPiperSpawn) = [] := by
  rw [List.filter_eq_nil_iff]
  intro e he
  simp [cleanupFiles_no_piper_spawn rf files fs e he]

/-! ## Lemmas about the download path -/

lemma fetchLoop_evs (fetch : String → FetchResult) (v : String) :
    ∀ (exts fs : List String) {e : Ev},
      e ∈ (fetchLoop fetch v exts fs).2.2 →
      (∃ u, e = Ev.netGet u) ∨ ∃ p, e = Ev.fwrite p := by
  intro exts
  induction exts with
  | nil => intro fs e h; simp [fetchLoop] at h
  | cons ext rest ih =>
    intro fs e h
    cases hf : fetch (voiceUrl v ext) <;>
      simp only [fetchLoop, hf] at h
    · rcases List.mem_singleton.mp h with h
      exact Or.inl ⟨_, h⟩
    · rcases List.mem_cons.mp h with h | h
      · exact Or.inl ⟨_, h⟩
      · exact Or.inr ⟨_, List.mem_singleton.mp h⟩
    · rcases List.mem_cons.mp h with h | h
      · exact Or.inl ⟨_, h⟩
      · rcases List.mem_cons.mp h with h | h
        · exact Or.inr ⟨_, h⟩
        · exact ih _ h

lemma download_hit (fetch : String → FetchResult) (fs : List String) (v : String)
    (h1 : (get_voice_paths v).1 ∈ fs) (h2 : (get_voice_paths v).2 ∈ fs) :
    download_voice_if_missing fetch fs v =
      (true, fs,
        [Ev.checkExists (get_voice_paths v).1,
         Ev.checkExists (get_voice_paths v).2]) := by
  simp [download_voice_if_missing, h1, h2]

lemma downloadBody_malformed (fetch : String → FetchResult) (fs : List String)
    (v : String) (evs0 : List Ev) (h : (splitChar v '-').length < 3) :
    downloadBody fetch fs v evs0 =
      (false, fs, (evs0 ++ [Ev.mkdir DATA_DIR]) ++ [Ev.logInvalidName v]) := by
  simp [downloadBody, h]

lemma downloadBody_fail (fetch : String → FetchResult) (fs : List String)
    (v : String) (evs0 : List Ev)
    (hparts : ¬ (splitChar v '-').length < 3)
    (hfail : fetch (voiceUrl v ".onnx") ≠ FetchResult.ok ∨
      fetch (voiceUrl v ".onnx.json") ≠ FetchResult.ok) :
    (downloadBody fetch fs v evs0).1 = false ∧
    (get_voice_paths v).1 ∉ (downloadBody fetch fs v evs0).2.1 ∧
    (get_voice_paths v).2 ∉ (downloadBody fetch fs v evs0).2.1 := by
  cases hf1 : fetch (voiceUrl v ".onnx") <;> cases hf2 : fetch (voiceUrl v ".onnx.json")
  case ok.ok => simp [hf1, hf2] at hfail
  all_goals
    simp only [downloadBody, hparts, if_false, fetchLoop, hf1, hf2, get_voice_paths]
  all_goals
    refine ⟨by simp, ?_, ?_⟩
  all_goals
    first
      | simpa using (unlink_pair _ _ _).1
      | simpa using (unlink_pair _ _ _).2

lemma unlinkIfExists_all (P : Ev → Bool) (hdel : ∀ p, P (Ev.fdelete p) = true)
    (fs : List String) (p : String) : (unlinkIfExists fs p).2.all P = true := by
  by_cases h : p ∈ fs <;> simp [unlinkIfExists, h, hdel]

lemma fetchLoop_all (fetch : String → FetchResult) (v : String) (P : Ev → Bool)
    (hnet : ∀ u, P (Ev.netGet u) = true) (hw : ∀ p, P (Ev.fwrite p) = true) :
    ∀ (exts fs : List String), (fetchLoop fetch v exts fs).2.2.all P = true := by
  intro exts
  induction exts with
  | nil => intro fs; simp [fetchLoop]
  | cons ext rest ih =>
    intro fs
    cases hf : fetch (voiceUrl v ext) <;>
      simp [fetchLoop, hf, hnet, hw, ih]

lemma downloadBody_all (fetch : String → FetchResult) (fs : List String)
    (v : String) (evs0 : List Ev) (P : Ev → Bool)
    (h0 : evs0.all P = true)
    (hmk : ∀ p, P (Ev.mkdir p) = true)
    (hinv : ∀ w, P (Ev.logInvalidName w) = true)
    (hnet : ∀ u, P (Ev.netGet u) = true)
    (hw : ∀ p, P (Ev.fwrite p) = true)
    (hdf : ∀ w, P (Ev.logDownloadFailed w) = true)
    (hdel : ∀ p, P (Ev.fdelete p) = true) :
    (downloadBody fetch fs v evs0).2.2.all P = true := by
  by_cases hp : (splitChar v '-').length < 3
  · rw [downloadBody_malformed fetch fs v evs0 hp]
    simp [List.all_append, h0, hmk, hinv]
  · cases hf1 : fetch (voiceUrl v ".onnx") <;>
      cases hf2 : fetch (voiceUrl v ".onnx.json") <;>
      simp only [downloadBody, hp, if_false, fetchLoop, hf1, hf2] <;>
      simp [List.all_append, h0, hmk, hnet, hw, hdf,
        unlinkIfExists_all P hdel]

lemma download_all (fetch : String → FetchResult) (fs : List String)
    (v : String) (P : Ev → Bool)
    (hchk : ∀ p, P (Ev.checkExists p) = true)
    (hmk : ∀ p, P (Ev.mkdir p) = true)
    (hinv : ∀ w, P (Ev.logInvalidName w) = true)
    (hnet : ∀ u, P (Ev.netGet u) = true)
    (hw : ∀ p, P (Ev.fwrite p) = true)
    (hdf : ∀ w, P (Ev.logDownloadFailed w) = true)
    (hdel : ∀ p, P (Ev.fdelete p) = true) :
    (download_voice_if_missing fetch fs v).2.2.all P = true := by
  unfold download_voice_if_missing
  by_cases h1 : (get_voice_paths v).1 ∈ fs
  · by_cases h2 : (get_voice_paths v).2 ∈ fs
    · simp [h1, h2, hchk]
    · simp only [h1, h2, if_pos, if_neg, not_false_eq_true, if_true]
      exact downloadBody_all fetch fs v _ P (by simp [hchk]) hmk hinv hnet hw hdf hdel
  · simp only [h1, if_neg, not_false_eq_true]
    exact downloadBody_all fetch fs v _ P (by simp [hchk]) hmk hinv hnet hw hdf hdel

lemma download_no_spawn (fetch : String → FetchResult) (fs : List String)
    (v : String) :
    ∀ e ∈ (download_voice_if_missing fetch fs v).2.2,
      isPiperSpawn e = false ∧ isFfmpegSpawn e = false := by
  have h := download_all fetch fs v
    (fun e => !(isPiperSpawn e || isFfmpegSpawn e))
    (fun _p => rfl) (fun _q => rfl) (fun _r => rfl) (fun _u => rfl)
    (fun _w => rfl) (fun _x => rfl) (fun _y => rfl)
  intro e he
  have := (List.all_eq_true.mp h) e he
  constructor <;> cases hps : isPiperSpawn e <;> cases hfs : isFfmpegSpawn e <;>
    simp [hps, hfs] at this ⊢

/-! ## Lemmas about conversion planning -/

lemma convert_wav (env : Env) (fs : List String) (w t : String)
    (h : normalize_format t = "wav") :
    convert_audio_if_needed env fs w t =
      (ConvResult.ok w "audio/wav" [], fs, []) := by
  simp [convert_audio_if_needed, h]

lemma convert_unsupported (env : Env) (fs : List String) (w t : String)
    (h1 : normalize_format t ≠ "wav") (h2 : normalize_format t ≠ "mp3") :
    convert_audio_if_needed env fs w t =
      (ConvResult.err 400
        "Unsupported audio format. Only 'wav' and 'mp3' are supported.",
       fs, []) := by
  simp [convert_audio_if_needed, h1, h2]

lemma convert_no_piper (env : Env) (fs : List String) (w t : String) :
    ∀ e ∈ (convert_audio_if_needed env fs w t).2.2, isPiperSpawn e = false := by
  intro e he
  by_cases h1 : normalize_format t = "wav"
  · simp [convert_audio_if_needed, h1] at he
  · by_cases h2 : normalize_format t = "mp3"
    · by_cases h3 : env.ffmpegOk = true ∧ w ∈ fs
      · simp [convert_audio_if_needed, h1, h2, h3] at he
        simp [he, isPiperSpawn]
      · simp [convert_audio_if_needed, h1, h2, h3] at he
        rcases he with he | he <;> simp [he, isPiperSpawn]
    · simp [convert_audio_if_needed, h1, h2] at he

/-! ## Lemmas about the streaming generator -/

lemma generator_fst (env : Env) (rf : String → Bool) (fs : List String)
    (cmd : PiperCmd) (text wav fin : String) (extra : List String)
    (ia : Option Nat) :
    (stream_audio_generator env rf fs cmd text wav fin extra ia).1 =
      (stream_phase1 env fs cmd text wav fin ia).1 := rfl

lemma phase1_evs (env : Env) (fs : List String) (cmd : PiperCmd)
    (text wav fin : String) (ia : Option Nat) :
    (stream_phase1 env fs cmd text wav fin ia).2.2 =
      [Ev.spawnPiper cmd text, Ev.logPiperError env.piperStderr] ∨
    (stream_phase1 env fs cmd text wav fin ia).2.2 =
      [Ev.spawnPiper cmd text, Ev.fread fin] := by
  by_cases h : env.piperExit ≠ 0
  · exact Or.inl (by simp [stream_phase1, h])
  · exact Or.inr (by simp [stream_phase1, h])

lemma phase1_spawn_stdin (env : Env) (fs : List String) (cmd : PiperCmd)
    (text wav fin : String) (ia : Option Nat) :
    ∀ c s, Ev.spawnPiper c s ∈ (stream_phase1 env fs cmd text wav fin ia).2.2 →
      c = cmd ∧ s = text := by
  intro c s h
  rcases phase1_evs env fs cmd text wav fin ia with he | he <;>
    rw [he] at h <;> simp at h <;> exact h

lemma phase1_fail (env : Env) (fs : List String) (cmd : PiperCmd)
    (text wav fin : String) (ia : Option Nat) (h : env.piperExit ≠ 0) :
    stream_phase1 env fs cmd text wav fin ia =
      (StreamOutcome.engineFailure env.piperExit
        ("Piper failed with exit code " ++ toString env.piperExit), fs,
       [Ev.spawnPiper cmd text, Ev.logPiperError env.piperStderr]) := by
  simp [stream_phase1, h]

lemma generator_spawn_stdin (env : Env) (rf : String → Bool) (fs : List String)
    (cmd : PiperCmd) (text wav fin : String) (extra : List String)
    (ia : Option Nat) :
    ∀ c s,
      Ev.spawnPiper c s ∈
        (stream_audio_generator env rf fs cmd text wav fin extra ia).2.2 →
      c = cmd ∧ s = text := by
  intro c s h
  simp only [stream_audio_generator, List.mem_append] at h
  rcases h with h | h
  · exact phase1_spawn_stdin env fs cmd text wav fin ia c s h
  · rcases cleanupFiles_evs rf _ _ h with ⟨p, hp⟩ | ⟨p, hp⟩ <;> simp at hp

lemma generator_no_ffmpeg (env : Env) (rf : String → Bool) (fs : List String)
    (cmd : PiperCmd) (text wav fin : String) (extra : List String)
    (ia : Option Nat) :
    ∀ i o,
      Ev.spawnFfmpeg i o ∉
        (stream_audio_generator env rf fs cmd text wav fin extra ia).2.2 := by
  intro i o h
  simp only [stream_audio_generator, List.mem_append] at h
  rcases h with h | h
  · rcases phase1_evs env fs cmd text wav fin ia with he | he <;>
      rw [he] at h <;> simp at h
  · rcases cleanupFiles_evs rf _ _ h with ⟨p, hp⟩ | ⟨p, hp⟩ <;> simp at hp

/-! ## Claim theorems -/

/-- C6: whenever the remote fetch of a voice fails at either of the two
asset files (any non-success outcome), the resolver returns `false` and
neither asset file is present in the resulting filesystem state — no
half-downloaded pair remains. -/
theorem c6_failed_download_removes_both (fetch : String → FetchResult)
    (fs : List String) (v : String)
    (hmiss : ¬((get_voice_paths v).1 ∈ fs ∧ (get_voice_paths v).2 ∈ fs))
    (hparts : 3 ≤ (splitChar v '-').length)
    (hfail : fetch (voiceUrl v ".onnx") ≠ FetchResult.ok ∨
      fetch (voiceUrl v ".onnx.json") ≠ FetchResult.ok) :
    (download_voice_if_missing fetch fs v).1 = false ∧
    (get_voice_paths v).1 ∉ (download_voice_if_missing fetch fs v).2.1 ∧
    (get_voice_paths v).2 ∉ (download_voice_if_missing fetch fs v).2.1 := by
  have hp : ¬ (splitChar v '-').length < 3 := by omega
  unfold download_voice_if_missing
  by_cases h1 : (get_voice_paths v).1 ∈ fs
  · by_cases h2 : (get_voice_paths v).2 ∈ fs
    · exact absurd ⟨h1, h2⟩ hmiss
    · rw [if_pos h1, if_neg h2]
      exact downloadBody_fail fetch fs v _ hp hfail
  · rw [if_neg h1]
    exact downloadBody_fail fetch fs v _ hp hfail

/-- A remote repository that always reports a non-success status. -/
def wFetchFail : String → FetchResult := fun _ => FetchResult.statusError

/-- Witness for C6 at the voice `pl_PL-gosia-medium` with an empty local
store and a failing repository. -/
theorem c6_witness :
    (¬((get_voice_paths "pl_PL-gosia-medium").1 ∈ ([] : List String) ∧
        (get_voice_paths "pl_PL-gosia-medium").2 ∈ ([] : List String)) ∧
      3 ≤ (splitChar "pl_PL-gosia-medium" '-').length ∧
      wFetchFail (voiceUrl "pl_PL-gosia-medium" ".onnx") ≠ FetchResult.ok) ∧
    (download_voice_if_missing wFetchFail [] "pl_PL-gosia-medium").1 = false ∧
    (get_voice_paths "pl_PL-gosia-medium").1 ∉
      (download_voice_if_missing wFetchFail [] "pl_PL-gosia-medium").2.1 ∧
    (get_voice_paths "pl_PL-gosia-medium").2 ∉
      (download_voice_if_missing wFetchFail [] "pl_PL-gosia-medium").2.1 :=
  ⟨⟨by decide, by decide, by decide⟩,
    c6_failed_download_removes_both wFetchFail [] "pl_PL-gosia-medium"
      (by decide) (by decide) (Or.inl (by decide))⟩

/-- C7: when both asset files of a voice already exist under the storage
root, the resolver returns `true`, leaves the filesystem untouched, and its
trace contains no network request, no file write, no directory creation and
no deletion. -/
theorem c7_cache_hit_no_network_no_write (fetch : String → FetchResult)
    (fs : List String) (v : String)
    (h1 : (get_voice_paths v).1 ∈ fs) (h2 : (get_voice_paths v).2 ∈ fs) :
    (download_voice_if_missing fetch fs v).1 = true ∧
    (download_voice_if_missing fetch fs v).2.1 = fs ∧
    ∀ e ∈ (download_voice_if_missing fetch fs v).2.2,
      (∀ u, e ≠ Ev.netGet u) ∧ (∀ p, e ≠ Ev.fwrite p) ∧
      (∀ p, e ≠ Ev.mkdir p) ∧ ∀ p, e ≠ Ev.fdelete p := by
  rw [download_hit fetch fs v h1 h2]
  refine ⟨rfl, rfl, ?_⟩
  intro e he
  rcases List.mem_cons.mp he with he | he
  · subst he
    refine ⟨?_, ?_, ?_, ?_⟩ <;> intro x <;> simp
  · rw [List.mem_singleton.mp he]
    refine ⟨?_, ?_, ?_, ?_⟩ <;> intro x <;> simp

/-- Local store already holding both assets of `en_US-test-low`. -/
def wFsHit : List String :=
  ["/data/en_US-test-low.onnx", "/data/en_US-test-low.onnx.json"]

/-- Witness for C7 at `en_US-test-low` with both files cached. -/
theorem c7_witness :
    ((get_voice_paths "en_US-test-low").1 ∈ wFsHit ∧
      (get_voice_paths "en_US-test-low").2 ∈ wFsHit) ∧
    (download_voice_if_missing wFetchFail wFsHit "en_US-test-low").1 = true ∧
    (download_voice_if_missing wFetchFail wFsHit "en_US-test-low").2.1 = wFsHit ∧
    ∀ e ∈ (download_voice_if_missing wFetchFail wFsHit "en_US-test-low").2.2,
      (∀ u, e ≠ Ev.netGet u) ∧ (∀ p, e ≠ Ev.fwrite p) ∧
      (∀ p, e ≠ Ev.mkdir p) ∧ ∀ p, e ≠ Ev.fdelete p :=
  ⟨⟨by decide, by decide⟩,
    c7_cache_hit_no_network_no_write wFetchFail wFsHit "en_US-test-low"
      (by decide) (by decide)⟩

/-- C10: the local-presence check runs before the identifier-format check:
a voice whose two files are cached resolves to `true` with no network
access even when its name has fewer than three dash-separated parts, while
on a cache miss the malformed name yields `false`, again with no network
access. -/
theorem c10_presence_check_first (fetch : String → FetchResult)
    (fs : List String) (v : String)
    (hparts : (splitChar v '-').length < 3)
    (h1 : (get_voice_paths v).1 ∈ fs) (h2 : (get_voice_paths v).2 ∈ fs) :
    (download_voice_if_missing fetch fs v).1 = true ∧
    (∀ u, Ev.netGet u ∉ (download_voice_if_missing fetch fs v).2.2) ∧
    ∀ fs' : List String,
      ¬((get_voice_paths v).1 ∈ fs' ∧ (get_voice_paths v).2 ∈ fs') →
      (download_voice_if_missing fetch fs' v).1 = false ∧
      ∀ u, Ev.netGet u ∉ (download_voice_if_missing fetch fs' v).2.2 := by
  refine ⟨?_, ?_, ?_⟩
  · rw [download_hit fetch fs v h1 h2]
  · rw [download_hit fetch fs v h1 h2]
    intro u hu
    simp at hu
  · intro fs' hmiss
    unfold download_voice_if_missing
    by_cases h1' : (get_voice_paths v).1 ∈ fs'
    · by_cases h2' : (get_voice_paths v).2 ∈ fs'
      · exact absurd ⟨h1', h2'⟩ hmiss
      · rw [if_pos h1', if_neg h2',
          downloadBody_malformed fetch fs' v _ hparts]
        refine ⟨rfl, ?_⟩
        intro u hu
        simp at hu
    · rw [if_neg h1', downloadBody_malformed fetch fs' v _ hparts]
      refine ⟨rfl, ?_⟩
      intro u hu
      simp at hu

/-- Local store already holding both assets of the malformed name
`badvoice`. -/
def wFsBad : List String := ["/data/badvoice.onnx", "/data/badvoice.onnx.json"]

/-- Witness for C10 at the one-part name `badvoice` with both files
cached. -/
theorem c10_witness :
    ((splitChar "badvoice" '-').length < 3 ∧
      (get_voice_paths "badvoice").1 ∈ wFsBad ∧
      (get_voice_paths "badvoice").2 ∈ wFsBad) ∧
    (download_voice_if_missing wFetchFail wFsBad "badvoice").1 = true ∧
    (∀ u, Ev.netGet u ∉ (download_voice_if_missing wFetchFail wFsBad "badvoice").2.2) ∧
    ∀ fs' : List String,
      ¬((get_voice_paths "badvoice").1 ∈ fs' ∧
          (get_voice_paths "badvoice").2 ∈ fs') →
      (download_voice_if_missing wFetchFail fs' "badvoice").1 = false ∧
      ∀ u, Ev.netGet u ∉ (download_voice_if_missing wFetchFail fs' "badvoice").2.2 :=
  ⟨⟨by decide, by decide, by decide⟩,
    c10_presence_check_first wFetchFail wFsBad "badvoice"
      (by decide) (by decide) (by decide)⟩

/-- C4: on every exit path of the streaming generator — success, engine
failure, interruption or read failure, over every environment — each
registered temporary file (the WAV path and every extra cleanup path) is
either absent from the final filesystem state or its failed deletion was
logged; and the outcome returned to the caller does not depend on whether
deletions fail. -/
theorem c4_cleanup_on_every_exit (env : Env) (rf : String → Bool)
    (fs : List String) (cmd : PiperCmd) (text wav fin : String)
    (extra : List String) (ia : Option Nat) :
    (∀ f ∈ wav :: extra, f ≠ "" →
      f ∉ (stream_audio_generator env rf fs cmd text wav fin extra ia).2.1 ∨
      Ev.logWarn f ∈
        (stream_audio_generator env rf fs cmd text wav fin extra ia).2.2) ∧
    ∀ rf' : String → Bool,
      (stream_audio_generator env rf fs cmd text wav fin extra ia).1 =
      (stream_audio_generator env rf' fs cmd text wav fin extra ia).1 := by
  constructor
  · intro f hf hne
    rcases cleanupFiles_deletes rf (wav :: extra)
        (stream_phase1 env fs cmd text wav fin ia).2.1 hf hne with h | h
    · exact Or.inl h
    · refine Or.inr ?_
      simp only [stream_audio_generator, List.mem_append]
      exact Or.inr h
  · intro rf'
    rfl

/-- Environment for the C4 witness: the engine works and the final file is
readable. -/
def wEnvGen : Env :=
  { fs := []
    fetch := wFetchFail
    ffmpegOk := true
    piperExit := 0
    piperStderr := ""
    chunks := fun _ => [[7]]
    pid := 1
    hex := "ab" }

/-- Engine command used in generator witnesses. -/
def wCmd : PiperCmd :=
  { model := "/data/en_US-test-low.onnx"
    output_file := "/tmp/piper_1_ab.wav"
    length_scale := 1
    noise_scale := none
    noise_w := none
    speaker := none }

/-- Witness for C4: a concrete successful run deletes the registered WAV
file (or would have logged a failure to do so). -/
theorem c4_witness :
    "/tmp/piper_1_ab.wav" ∉
      (stream_audio_generator wEnvGen (fun _ => false) [] wCmd "hi"
        "/tmp/piper_1_ab.wav" "/tmp/piper_1_ab.wav" [] none).2.1 ∨
    Ev.logWarn "/tmp/piper_1_ab.wav" ∈
      (stream_audio_generator wEnvGen (fun _ => false) [] wCmd "hi"
        "/tmp/piper_1_ab.wav" "/tmp/piper_1_ab.wav" [] none).2.2 :=
  (c4_cleanup_on_every_exit wEnvGen (fun _ => false) [] wCmd "hi"
      "/tmp/piper_1_ab.wav" "/tmp/piper_1_ab.wav" [] none).1
    "/tmp/piper_1_ab.wav" (List.mem_cons_self _ _) (by decide)

/-- C5: with no explicit length scale and a speed `s` in `[0.25, 4.0]`, the
length scale handed to the engine equals `1 / max(0.1, s)`; an explicit
length scale is passed verbatim. -/
theorem c5_length_scale_derivation (req : SpeechRequest) (s : ℚ)
    (o w : String) (hs : req.speed = some s)
    (h1 : 1/4 ≤ s) (_h2 : s ≤ 4) :
    (req.length_scale = none →
      (build_piper_cmd req o w).length_scale = 1 / max (1/10) s) ∧
    ∀ l, req.length_scale = some l →
      (build_piper_cmd req o w).length_scale = l := by
  constructor
  · intro hl
    have hs0 : s ≠ 0 := by
      intro h
      rw [h] at h1
      norm_num at h1
    simp [build_piper_cmd, final_length_scale, hl, pyOrQ, hs, hs0]
  · intro l hl
    simp [build_piper_cmd, final_length_scale, hl]

/-- Request for the C5 witness: `speed = 2.0`, no explicit length scale. -/
def wReqSpeed : SpeechRequest :=
  { model := "en_US-test-low"
    input := InputField.str "hi"
    voice := none
    format := none
    response_format := none
    speed := some 2
    noise_scale := none
    noise_scale_w := none
    length_scale := none
    speaker := none }

/-- Witness for C5: `speed = 2.0` yields length scale `0.5`. -/
theorem c5_witness :
    ((1 : ℚ)/4 ≤ 2 ∧ (2 : ℚ) ≤ 4) ∧
    (build_piper_cmd wReqSpeed "m.onnx" "/tmp/x.wav").length_scale = 1/2 := by
  refine ⟨⟨by norm_num, by norm_num⟩, ?_⟩
  have h := (c5_length_scale_derivation wReqSpeed 2 "m.onnx" "/tmp/x.wav"
    rfl (by norm_num) (by norm_num)).1 rfl
  rw [h, max_eq_right (by norm_num : (1 : ℚ)/10 ≤ 2)]

/-- C9: the text handed to the engine's standard input is always the joined
input (the string itself, or the segments joined with newlines); an empty
joined input is rejected with 400 and the exact detail message; and the
two-segment example joins as specified. -/
theorem c9_input_joining (env : Env) (rf : String → Bool)
    (req : SpeechRequest) (ia : Option Nat)
    (hv : effective_voice req ≠ "") :
    (∀ c s, Ev.spawnPiper c s ∈ (handle_request env rf req ia).2.2 →
      s = join_input req.input) ∧
    (join_input req.input = "" →
      (handle_request env rf req ia).1 =
        Outcome.error 400 "`input` text must not be empty.") ∧
    join_input (InputField.list ["Hello", "from Piper"]) = "Hello\nfrom Piper" := by
  refine ⟨?_, ?_, by decide⟩
  · intro c s h
    by_cases hi : join_input req.input = ""
    · simp [handle_request, hv, hi] at h
    · by_cases hd :
        (download_voice_if_missing env.fetch env.fs (effective_voice req)).1 = false
      · simp [handle_request, hv, hi, hd] at h
        have hsp := download_no_spawn env.fetch env.fs (effective_voice req) _ h
        simp [isPiperSpawn] at hsp
      · cases hcr : (convert_audio_if_needed env
            (download_voice_if_missing env.fetch env.fs (effective_voice req)).2.1
            (wav_path_of env) (effective_format req)).1 with
        | err st dt =>
          simp [handle_request, hv, hi, hd, hcr] at h
          rcases h with h | h
          · have hsp := download_no_spawn env.fetch env.fs (effective_voice req) _ h
            simp [isPiperSpawn] at hsp
          · have hsp := convert_no_piper env _ (wav_path_of env)
              (effective_format req) _ h
            simp [isPiperSpawn] at hsp
        | ok fp media extra =>
          simp [handle_request, hv, hi, hd, hcr] at h
          rcases h with h | h | h
          · have hsp := download_no_spawn env.fetch env.fs (effective_voice req) _ h
            simp [isPiperSpawn] at hsp
          · have hsp := convert_no_piper env _ (wav_path_of env)
              (effective_format req) _ h
            simp [isPiperSpawn] at hsp
          · exact (generator_spawn_stdin env rf _ _ _ _ _ _ ia c s h).2
  · intro hi
    simp [handle_request, hv, hi]

/-- Request whose input is the two-segment list of the C9 example. -/
def wReqList : SpeechRequest :=
  { model := "en_US-test-low"
    input := InputField.list ["Hello", "from Piper"]
    voice := none
    format := none
    response_format := none
    speed := some 1
    noise_scale := none
    noise_scale_w := none
    length_scale := some 1
    speaker := none }

/-- Request with an empty input string. -/
def wReqEmpty : SpeechRequest :=
  { model := "en_US-test-low"
    input := InputField.str ""
    voice := none
    format := none
    response_format := none
    speed := some 1
    noise_scale := none
    noise_scale_w := none
    length_scale := some 1
    speaker := none }

/-- Witness for C9: the example list joins with a newline, and an empty
input is answered with the exact 400 detail. -/
theorem c9_witness :
    join_input (InputField.list ["Hello", "from Piper"]) = "Hello\nfrom Piper" ∧
    (handle_request wEnvGen (fun _ => false) wReqEmpty none).1 =
      Outcome.error 400 "`input` text must not be empty." :=
  ⟨(c9_input_joining wEnvGen (fun _ => false) wReqList none (by decide)).2.2,
   (c9_input_joining wEnvGen (fun _ => false) wReqEmpty none (by decide)).2.1
     (by decide)⟩

/-- C3 (amended): an unsupported effective format is rejected with 400 and
the exact detail, and neither the transcoder nor the engine is ever
spawned; the rejection happens only after voice resolution, not before any
filesystem access. -/
theorem c3_amended_unsupported_format (env : Env) (rf : String → Bool)
    (req : SpeechRequest) (ia : Option Nat)
    (hv : effective_voice req ≠ "") (hi : join_input req.input ≠ "")
    (h1 : (get_voice_paths (effective_voice req)).1 ∈ env.fs)
    (h2 : (get_voice_paths (effective_voice req)).2 ∈ env.fs)
    (hf1 : normalize_format (effective_format req) ≠ "wav")
    (hf2 : normalize_format (effective_format req) ≠ "mp3") :
    (handle_request env rf req ia).1 =
      Outcome.error 400
        "Unsupported audio format. Only 'wav' and 'mp3' are supported." ∧
    (∀ i o, Ev.spawnFfmpeg i o ∉ (handle_request env rf req ia).2.2) ∧
    ∀ c s, Ev.spawnPiper c s ∉ (handle_request env rf req ia).2.2 := by
  have hd := download_hit env.fetch env.fs (effective_voice req) h1 h2
  have hc := convert_unsupported env env.fs (wav_path_of env)
    (effective_format req) hf1 hf2
  refine ⟨?_, ?_, ?_⟩ <;> simp [handle_request, hv, hi, hd, hc]

/-- Environment for the C3 witness and counterexample: assets of
`en_US-test-low` cached, everything else healthy. -/
def cEnvFmt : Env :=
  { fs := wFsHit
    fetch := wFetchFail
    ffmpegOk := true
    piperExit := 0
    piperStderr := ""
    chunks := fun _ => [[0]]
    pid := 1
    hex := "ab" }

/-- Request asking for the unsupported format `flac`. -/
def cReqFlac : SpeechRequest :=
  { model := "en_US-test-low"
    input := InputField.str "hello"
    voice := none
    format := some "flac"
    response_format := none
    speed := some 1
    noise_scale := none
    noise_scale_w := none
    length_scale := some 1
    speaker := none }

/-- Counterexample to C3 as stated: the `flac` request is answered with 400,
but the trace already contains a filesystem existence check performed by
voice resolution, so the rejection does not precede all filesystem
access. -/
theorem c3_counterexample :
    (handle_request cEnvFmt (fun _ => false) cReqFlac none).1 =
      Outcome.error 400
        "Unsupported audio format. Only 'wav' and 'mp3' are supported." ∧
    Ev.checkExists "/data/en_US-test-low.onnx" ∈
      (handle_request cEnvFmt (fun _ => false) cReqFlac none).2.2 := by
  decide

/-- Witness for the amended C3 at the concrete `flac` request. -/
theorem c3_amended_witness :
    (handle_request cEnvFmt (fun _ => false) cReqFlac none).1 =
      Outcome.error 400
        "Unsupported audio format. Only 'wav' and 'mp3' are supported." ∧
    (∀ i o, Ev.spawnFfmpeg i o ∉
      (handle_request cEnvFmt (fun _ => false) cReqFlac none).2.2) ∧
    ∀ c s, Ev.spawnPiper c s ∉
      (handle_request cEnvFmt (fun _ => false) cReqFlac none).2.2 :=
  c3_amended_unsupported_format cEnvFmt (fun _ => false) cReqFlac none
    (by decide) (by decide) (by decide) (by decide) (by decide) (by decide)

/-- C8 (amended): a non-zero engine exit code yields a server-side failure
whose detail carries the exit code (the captured standard error is logged,
not included in the detail), and the engine is spawned exactly once — the
failure is not retried. -/
theorem c8_amended_engine_failure (env : Env) (rf : String → Bool)
    (req : SpeechRequest) (ia : Option Nat)
    (hv : effective_voice req ≠ "") (hi : join_input req.input ≠ "")
    (h1 : (get_voice_paths (effective_voice req)).1 ∈ env.fs)
    (h2 : (get_voice_paths (effective_voice req)).2 ∈ env.fs)
    (hfmt : normalize_format (effective_format req) = "wav")
    (hexit : env.piperExit ≠ 0) :
    (handle_request env rf req ia).1 =
      Outcome.streamed "audio/wav"
        (StreamOutcome.engineFailure env.piperExit
          ("Piper failed with exit code " ++ toString env.piperExit)) ∧
    Ev.logPiperError env.piperStderr ∈ (handle_request env rf req ia).2.2 ∧
    ((handle_request env rf req ia).2.2.filter isPiperSpawn).length = 1 := by
  have hd := download_hit env.fetch env.fs (effective_voice req) h1 h2
  have hc := convert_wav env env.fs (wav_path_of env) (effective_format req) hfmt
  have hp1 := phase1_fail env env.fs
    (build_piper_cmd req (get_voice_paths (effective_voice req)).1 (wav_path_of env))
    (join_input req.input) (wav_path_of env) (wav_path_of env) ia hexit
  refine ⟨?_, ?_, ?_⟩ <;>
    simp [handle_request, hv, hi, hd, hc, stream_audio_generator, hp1,
      List.filter_append, cleanupFiles_filter_piper, isPiperSpawn]

/-- Environment for C8: cached voice, engine exits with code 2 and the
standard error text below. -/
def cEnvEngineFail : Env :=
  { fs := wFsHit
    fetch := wFetchFail
    ffmpegOk := true
    piperExit := 2
    piperStderr := "synthesis core dumped"
    chunks := fun _ => [[0]]
    pid := 1
    hex := "ab" }

/-- Plain wav request for `en_US-test-low`. -/
def cReqWav : SpeechRequest :=
  { model := "en_US-test-low"
    input := InputField.str "hello"
    voice := none
    format := none
    response_format := none
    speed := some 1
    noise_scale := none
    noise_scale_w := none
    length_scale := some 1
    speaker := none }

/-- Counterexample to C8 as stated: the 500 detail is exactly the exit-code
sentence and does not contain the captured standard-error text. -/
theorem c8_counterexample :
    (handle_request cEnvEngineFail (fun _ => false) cReqWav none).1 =
      Outcome.streamed "audio/wav"
        (StreamOutcome.engineFailure 2 "Piper failed with exit code 2") ∧
    strContains "Piper failed with exit code 2" "synthesis core dumped" = false := by
  decide

/-- Witness for the amended C8 at the concrete failing-engine request. -/
theorem c8_amended_witness :
    (handle_request cEnvEngineFail (fun _ => false) cReqWav none).1 =
      Outcome.streamed "audio/wav"
        (StreamOutcome.engineFailure cEnvEngineFail.piperExit
          ("Piper failed with exit code " ++ toString cEnvEngineFail.piperExit)) ∧
    Ev.logPiperError cEnvEngineFail.piperStderr ∈
      (handle_request cEnvEngineFail (fun _ => false) cReqWav none).2.2 ∧
    ((handle_request cEnvEngineFail (fun _ => false) cReqWav none).2.2.filter
      isPiperSpawn).length = 1 :=
  c8_amended_engine_failure cEnvEngineFail (fun _ => false) cReqWav none
    (by decide) (by decide) (by decide) (by decide) (by decide) (by decide)

/-- Environment for C1: empty local store, failing repository. -/
def cEnvTrav : Env :=
  { fs := []
    fetch := wFetchFail
    ffmpegOk := true
    piperExit := 0
    piperStderr := ""
    chunks := fun _ => []
    pid := 1
    hex := "ab" }

/-- Request whose effective voice identifier is a path-traversal string. -/
def cReqTrav : SpeechRequest :=
  { model := "../etc/passwd"
    input := InputField.str "malicious"
    voice := none
    format := none
    response_format := none
    speed := some 1
    noise_scale := none
    noise_scale_w := none
    length_scale := some 1
    speaker := none }

/-- C1 evaluated on the code: the traversal identifier `../etc/passwd` is
not rejected with 400; instead a filesystem path is constructed from it and
probed for existence, and the request is answered 404. -/
theorem c1_traversal_not_rejected :
    (handle_request cEnvTrav (fun _ => false) cReqTrav none).1 =
      Outcome.error 404 "Voice '../etc/passwd' not found." ∧
    Ev.checkExists "/data/../etc/passwd.onnx" ∈
      (handle_request cEnvTrav (fun _ => false) cReqTrav none).2.2 ∧
    ∀ d, (handle_request cEnvTrav (fun _ => false) cReqTrav none).1 ≠
      Outcome.error 400 d := by
  refine ⟨by decide, by decide, fun d h => ?_⟩
  rw [show (handle_request cEnvTrav (fun _ => false) cReqTrav none).1 =
      Outcome.error 404 "Voice '../etc/passwd' not found." from by decide] at h
  simp at h

/-- Environment for C2: cached voice, working transcoder and engine. -/
def cEnvMp3 : Env :=
  { fs := wFsHit
    fetch := wFetchFail
    ffmpegOk := true
    piperExit := 0
    piperStderr := ""
    chunks := fun _ => [[0]]
    pid := 1
    hex := "ab" }

/-- Request asking for mp3 output. -/
def cReqMp3 : SpeechRequest :=
  { model := "en_US-test-low"
    input := InputField.str "hello"
    voice := none
    format := some "mp3"
    response_format := none
    speed := some 1
    noise_scale := none
    noise_scale_w := none
    length_scale := some 1
    speaker := none }

/-- C2 evaluated on the code: for an mp3 request the transcoder is spawned
before the engine ever runs — it is handed the not-yet-created WAV path, so
the request fails with 500 and the engine is never spawned at all. -/
theorem c2_transcoder_runs_before_engine :
    (handle_request cEnvMp3 (fun _ => false) cReqMp3 none).1 =
      Outcome.error 500
        "Failed to convert audio to mp3. Is ffmpeg installed in the container?" ∧
    Ev.spawnFfmpeg "/tmp/piper_1_ab.wav" "/tmp/piper_1_ab.mp3" ∈
      (handle_request cEnvMp3 (fun _ => false) cReqMp3 none).2.2 ∧
    ∀ e ∈ (handle_request cEnvMp3 (fun _ => false) cReqMp3 none).2.2,
      isPiperSpawn e = false := by
  decide

end PiperServer
